import Mathlib

/-!
Verification development for a YouTube-to-Telegram notification bot
(`bot.py`).  The Python source is shallowly embedded: pure fragments
become Lean functions, the mutable process state (`channel_cache`,
`last_activities`) is threaded explicitly, external calls (YouTube API,
Telegram delivery, `langdetect`) are supplied as explicit inputs or
oracles, and Python exceptions are modelled with `Option`/`Except`.
-/

/-- Channel info record as stored in `YouTubeMonitor.channel_cache`:
`{'title': ..., 'lang': ...}`. -/
structure ChannelInfo where
  title : String
  lang : String
  deriving Repr, DecidableEq

/-- An activity dict as built by `YouTubeMonitor.get_activities`:
`{'type': ..., 'title': ..., 'time': ..., 'video_id': ...}`.
`video_id` is `Option String` because the Python expression producing it
can evaluate to `None`. -/
structure Activity where
  type : String
  title : String
  time : String
  video_id : Option String
  deriving Repr, DecidableEq

/-- Python `str(x)` for an optional string, as an f-string renders it:
`None` prints as `"None"`. -/
def py_str (o : Option String) : String :=
  match o with
  | some s => s
  | none => "None"

/-- Python `a or b` on optional strings: the first operand when it is
truthy (present and non-empty), otherwise the second. -/
def py_or (a b : Option String) : Option String :=
  match a with
  | some s => if s = "" then b else some s
  | none => b

/-- The dedup key from `monitor_channels`:
`f"{channel_id}_{activity['video_id']}"`. -/
def activity_key (channel_id : String) (video_id : Option String) : String :=
  channel_id ++ "_" ++ py_str video_id

/-- English entry of `LANGUAGE_TEMPLATES`. -/
def en_templates : List (String × String) :=
  [("upload", "🎥 New video from {channel}!\n\n📌 {title}\n⏰ {time}\n🔗 {url}"),
   ("live", "🔴 {channel} is LIVE!\n\n📌 {title}\n👀 {url}"),
   ("default", "✨ New activity from {channel}!\n\n📌 {title}\n⏰ {time}\n🔗 {url}")]

/-- Spanish entry of `LANGUAGE_TEMPLATES`. -/
def es_templates : List (String × String) :=
  [("upload", "🎥 ¡Nuevo video de {channel}!\n\n📌 {title}\n⏰ {time}\n🔗 {url}"),
   ("live", "🔴 ¡{channel} está EN VIVO!\n\n📌 {title}\n👀 {url}"),
   ("default", "✨ Nueva actividad de {channel}!\n\n📌 {title}\n⏰ {time}\n🔗 {url}")]

/-- Russian entry of `LANGUAGE_TEMPLATES`. -/
def ru_templates : List (String × String) :=
  [("upload", "🎥 Новое видео от {channel}!\n\n📌 {title}\n⏰ {time}\n🔗 {url}"),
   ("live", "🔴 {channel} в ЭФИРЕ!\n\n📌 {title}\n👀 {url}"),
   ("default", "✨ Новая активность от {channel}!\n\n📌 {title}\n⏰ {time}\n🔗 {url}")]

/-- The `LANGUAGE_TEMPLATES` dict: language code to template dict. -/
def LANGUAGE_TEMPLATES : List (String × List (String × String)) :=
  [("en", en_templates), ("es", es_templates), ("ru", ru_templates)]

/-- Scanner behind the model of Python `str.format` restricted to the
feature the templates use: simple named replacement fields `\x7bname\x7d`.
The second argument is `none` in plain text and `some acc` inside a
field, `acc` holding the field-name characters read so far in reverse.
An unterminated field or an unknown field name raises (returns
`none`); substituted values are not re-scanned. -/
def subst_scan (vals : List (String × String)) :
    List Char → Option (List Char) → Option (List Char)
  | [], none => some []
  | [], some _ => none
  | c :: rest, none =>
    if c = '\x7b' then subst_scan vals rest (some [])
    else (subst_scan vals rest none).map (c :: ·)
  | c :: rest, some acc =>
    if c = '\x7d' then
      match List.lookup (String.mk acc.reverse) vals with
      | some v => (subst_scan vals rest none).map (v.data ++ ·)
      | none => none
    else subst_scan vals rest (some (c :: acc))

/-- Models Python `str.format` on a template, with the named values
supplied as an association list. -/
def subst_fields (vals : List (String × String)) (template : List Char) :
    Option (List Char) :=
  subst_scan vals template none

/-- Python `str.replace` for a single-character pattern (the only form
the source uses is `.replace('Z', '+00:00')`): every occurrence of the
character is replaced by the replacement string. -/
def replace_char (c : Char) (repl : List Char) : List Char → List Char
  | [] => []
  | d :: rest =>
    if d = c then repl ++ replace_char c repl rest
    else d :: replace_char c repl rest

/-- String-level wrapper for `replace_char`. -/
def py_replace_char (s : String) (c : Char) (repl : String) : String :=
  String.mk (replace_char c repl.data s.data)

/-- A naive-plus-offset instant, as `datetime.fromisoformat` returns
(only fields `strftime('%Y-%m-%d %H:%M')` reads are kept; the parsed
timezone offset is validated and discarded since `strftime` never
converts). -/
structure PyDateTime where
  year : Nat
  month : Nat
  day : Nat
  hour : Nat
  minute : Nat
  second : Nat
  deriving Repr, DecidableEq

/-- Gregorian leap-year test (as `datetime` validates dates). -/
def is_leap (y : Nat) : Bool :=
  (y % 4 == 0 && y % 100 != 0) || y % 400 == 0

/-- Number of days in a month, for date validation. -/
def days_in_month (y m : Nat) : Nat :=
  if m == 2 then (if is_leap y then 29 else 28)
  else if m == 4 || m == 6 || m == 9 || m == 11 then 30
  else 31

/-- Value of a decimal digit character. -/
def char_digit (c : Char) : Option Nat :=
  if c.isDigit then some (c.toNat - 48) else none

/-- Two-digit decimal field. -/
def two_digits (a b : Char) : Option Nat :=
  match char_digit a, char_digit b with
  | some x, some y => some (x * 10 + y)
  | _, _ => none

/-- Parses the `YYYY-MM-DD` date part (exactly ten characters),
validating the calendar date as `datetime` does. -/
def parse_date : List Char → Option (Nat × Nat × Nat)
  | [y1, y2, y3, y4, s1, m1, m2, s2, d1, d2] =>
    if s1 == '-' && s2 == '-' then
      match char_digit y1, char_digit y2, char_digit y3, char_digit y4,
            two_digits m1 m2, two_digits d1 d2 with
      | some a, some b, some c, some d, some m, some dd =>
        let y := ((a * 10 + b) * 10 + c) * 10 + d
        if 1 ≤ y && 1 ≤ m && m ≤ 12 && 1 ≤ dd && dd ≤ days_in_month y m then
          some (y, m, dd)
        else none
      | _, _, _, _, _, _ => none
    else none
  | _ => none

/-- Parses the `HH[:MM[:SS]]` local-time part, validating field ranges. -/
def parse_hms : List Char → Option (Nat × Nat × Nat)
  | [h1, h2] =>
    match two_digits h1 h2 with
    | some h => if h ≤ 23 then some (h, 0, 0) else none
    | none => none
  | [h1, h2, c1, m1, m2] =>
    if c1 == ':' then
      match two_digits h1 h2, two_digits m1 m2 with
      | some h, some m => if h ≤ 23 && m ≤ 59 then some (h, m, 0) else none
      | _, _ => none
    else none
  | [h1, h2, c1, m1, m2, c2, s1, s2] =>
    if c1 == ':' && c2 == ':' then
      match two_digits h1 h2, two_digits m1 m2, two_digits s1 s2 with
      | some h, some m, some s =>
        if h ≤ 23 && m ≤ 59 && s ≤ 59 then some (h, m, s) else none
      | _, _, _ => none
    else none
  | _ => none

/-- Validates an `HH:MM` utc-offset body (the characters after the sign). -/
def valid_tz : List Char → Bool
  | [h1, h2, c, m1, m2] =>
    c == ':' &&
      (match two_digits h1 h2, two_digits m1 m2 with
       | some h, some m => h ≤ 23 && m ≤ 59
       | _, _ => false)
  | _ => false

/-- Models `datetime.fromisoformat` on the forms the bot meets:
ten-character date, optional single separator character plus
`HH[:MM[:SS]]` time, optional signed `HH:MM` offset.  Malformed input
raises `ValueError`, modelled as `none`. -/
def fromisoformat (s : String) : Option PyDateTime :=
  let cs := s.data
  match parse_date (cs.take 10) with
  | none => none
  | some (y, m, d) =>
    match cs.drop 10 with
    | [] => some ⟨y, m, d, 0, 0, 0⟩
    | _sep :: tcs =>
      let timepart := tcs.takeWhile (fun c => !(c == '+' || c == '-'))
      let tzpart := tcs.dropWhile (fun c => !(c == '+' || c == '-'))
      match parse_hms timepart with
      | none => none
      | some (hh, mi, ss) =>
        match tzpart with
        | [] => some ⟨y, m, d, hh, mi, ss⟩
        | _sign :: tz => if valid_tz tz then some ⟨y, m, d, hh, mi, ss⟩ else none

/-- Zero-pads a number to two digits (`%m`, `%d`, `%H`, `%M`). -/
def pad2 (n : Nat) : String :=
  if n < 10 then "0" ++ toString n else toString n

/-- Zero-pads a number to four digits (`%Y`). -/
def pad4 (n : Nat) : String :=
  if n < 10 then "000" ++ toString n
  else if n < 100 then "00" ++ toString n
  else if n < 1000 then "0" ++ toString n
  else toString n

/-- `activity_time.strftime('%Y-%m-%d %H:%M')`. -/
def strftime_ymd_hm (dt : PyDateTime) : String :=
  pad4 dt.year ++ "-" ++ pad2 dt.month ++ "-" ++ pad2 dt.day ++ " " ++
    pad2 dt.hour ++ ":" ++ pad2 dt.minute

/-- The viewing URL built inside `TelegramNotifier.format_message`:
short link for `'upload'`, watch page otherwise. -/
def activity_url (a : Activity) : String :=
  if a.type == "upload" then "https://youtu.be/" ++ py_str a.video_id
  else "https://youtube.com/watch?v=" ++ py_str a.video_id

/-- `TelegramNotifier.format_message`.  `none` models an exception
escaping (a `ValueError` from `fromisoformat`, or a missing template
key). -/
def format_message (activity : Activity) (channel_info : ChannelInfo) : Option String :=
  let templates := (List.lookup channel_info.lang LANGUAGE_TEMPLATES).getD en_templates
  match fromisoformat (py_replace_char activity.time 'Z' "+00:00") with
  | none => none
  | some dt =>
    let formatted_time := strftime_ymd_hm dt
    let url := activity_url activity
    match List.lookup "default" templates with
    | none => none
    | some dflt =>
      let template := (List.lookup activity.type templates).getD dflt
      (subst_fields [("channel", channel_info.title), ("title", activity.title),
                     ("time", formatted_time), ("url", url)] template.data).map String.mk

/-- A channel snippet as returned by the channels-list API call:
`title` is always present, `description` is read with `.get(...)` and may
be absent. -/
structure Snippet where
  title : String
  description : Option String
  deriving Repr, DecidableEq

/-- `YouTubeMonitor.detect_language`: runs the external `langdetect`
oracle on the first 500 characters, falling back to `'en'` when the
library raises. -/
def detect_language (detect : String → Option String) (text : String) : String :=
  (detect (text.take 500)).getD "en"

/-- `YouTubeMonitor.get_channel_info`, with the channel cache threaded
explicitly and the channels-list response supplied as input
(`Except.error` when `request.execute()` raises; the response is only
consulted on a cache miss, mirroring that the API call only happens
then).  Returns the updated cache and the info dict, or propagates the
exception. -/
def get_channel_info (detect : String → Option String)
    (cache : List (String × ChannelInfo)) (channel_id : String)
    (response : Except String (List Snippet)) :
    Except String (List (String × ChannelInfo) × ChannelInfo) :=
  match List.lookup channel_id cache with
  | some info => Except.ok (cache, info)
  | none =>
    match response with
    | Except.error e => Except.error e
    | Except.ok [] => Except.ok (cache, ⟨"Unknown Channel", "en"⟩)
    | Except.ok (snippet :: _) =>
      let lang := detect_language detect ((snippet.description.getD "") ++ " " ++ snippet.title)
      let info : ChannelInfo := ⟨snippet.title, lang⟩
      Except.ok (cache ++ [(channel_id, info)], info)

/-- The `contentDetails` of one activities-list item.  The two nested
`.get` chains are flattened: `upload_videoId` is
`contentDetails.get('upload', \x7b\x7d).get('videoId')` and
`liveBroadcast_activeLiveChatId` is
`contentDetails.get('liveBroadcast', \x7b\x7d).get('activeLiveChatId')`. -/
structure ContentDetails where
  upload_videoId : Option String
  liveBroadcast_activeLiveChatId : Option String
  deriving Repr, DecidableEq

/-- One item of the activities-list response (snippet fields the loop
reads, plus content details). -/
structure ActivityItem where
  type : String
  title : String
  publishedAt : String
  contentDetails : ContentDetails
  deriving Repr, DecidableEq

/-- The `'video_id'` expression of `get_activities`:
`upload videoId or liveBroadcast activeLiveChatId` (Python `or`). -/
def extract_video_id (cd : ContentDetails) : Option String :=
  py_or cd.upload_videoId cd.liveBroadcast_activeLiveChatId

/-- `YouTubeMonitor.get_activities` with the API response supplied as
input.  A raising `request.execute()` is caught inside the function and
yields the empty list; otherwise items are filtered to the `'upload'`
and `'live'` types and mapped to activity dicts. -/
def get_activities (response : Except String (List ActivityItem)) : List Activity :=
  match response with
  | Except.error _ => []
  | Except.ok items =>
    (items.filter (fun i => i.type == "upload" || i.type == "live")).map
      (fun i => ⟨i.type, i.title, i.publishedAt, extract_video_id i.contentDetails⟩)

/-- The process-lifetime mutable state of `monitor_channels` plus the
observable output traces: the channel cache, the `last_activities` dedup
map (key to published time, in insertion order), the successfully
delivered notifications as (dedup key, message text) events, and the
per-channel error log lines. -/
structure BotState where
  channel_cache : List (String × ChannelInfo)
  last_activities : List (String × String)
  sent : List (String × String)
  log : List String
  deriving Repr, DecidableEq

/-- The fresh state at the top of `monitor_channels`. -/
def init_state : BotState := ⟨[], [], [], []⟩

/-- Keys currently recorded in `last_activities`. -/
def seen_keys (st : BotState) : List String :=
  st.last_activities.map Prod.fst

/-- One configured channel's external world for one cycle: the config
entry, the search response (list of resulting channel ids) when the
entry is a handle, the channels-list response, the activities-list
response, and the outcome of the n-th `send_notification` call of this
channel (`none` = delivered, `some e` = the POST raised `e`). -/
structure ChannelEnv where
  channel : String
  searchResult : Except String (List String)
  infoResponse : Except String (List Snippet)
  activitiesResponse : Except String (List ActivityItem)
  sendFail : Nat → Option String

/-- Python `s.startswith(pre)`: prefix test on the character sequence. -/
def py_startswith (s pre : String) : Bool :=
  pre.data.isPrefixOf s.data

/-- The handle-resolution step at the top of the per-channel body:
`Except.error` = the search call raised, `Except.ok none` = no results
(the loop does `continue`), `Except.ok (some id)` = resolved. -/
def resolve_channel (env : ChannelEnv) : Except String (Option String) :=
  if py_startswith env.channel "@" then
    match env.searchResult with
    | Except.error e => Except.error e
    | Except.ok [] => Except.ok none
    | Except.ok (cid :: _) => Except.ok (some cid)
  else Except.ok (some env.channel)

/-- The inner `for activity in activities` loop: skip an already-seen
key; otherwise format (a raising `format_message` aborts the channel),
send (a raising POST aborts the channel, before the key is recorded),
then record the key.  Returns the updated state and the uncaught
exception if one escaped. -/
def run_activity_loop (channel_id : String) (channel_info : ChannelInfo)
    (sendFail : Nat → Option String) :
    List Activity → Nat → BotState → BotState × Option String
  | [], _, st => (st, none)
  | a :: rest, sendIdx, st =>
    let key := activity_key channel_id a.video_id
    if (seen_keys st).contains key then
      run_activity_loop channel_id channel_info sendFail rest sendIdx st
    else
      match format_message a channel_info with
      | none => (st, some "ValueError")
      | some msg =>
        match sendFail sendIdx with
        | some e => (st, some e)
        | none =>
          run_activity_loop channel_id channel_info sendFail rest (sendIdx + 1)
            { st with
              last_activities := st.last_activities ++ [(key, a.time)],
              sent := st.sent ++ [(key, msg)] }

/-- The body of the per-channel `try` block: resolve the handle, fetch
channel info (updating the cache), fetch activities, run the activity
loop.  Returns the state as mutated so far and the uncaught exception
if one escaped the body. -/
def process_channel_body (detect : String → Option String) (env : ChannelEnv)
    (st : BotState) : BotState × Option String :=
  match resolve_channel env with
  | Except.error e => (st, some e)
  | Except.ok none => (st, none)
  | Except.ok (some channel_id) =>
    match get_channel_info detect st.channel_cache channel_id env.infoResponse with
    | Except.error e => (st, some e)
    | Except.ok (cache2, info) =>
      let st2 := { st with channel_cache := cache2 }
      let activities := get_activities env.activitiesResponse
      run_activity_loop channel_id info env.sendFail activities 0 st2

/-- One configured channel processed under the per-channel
`try`/`except`: an exception caught there is logged
(`Error processing <channel>: <e>`) and the loop moves on. -/
def process_channel (detect : String → Option String) (env : ChannelEnv)
    (st : BotState) : BotState :=
  match process_channel_body detect env st with
  | (st2, none) => st2
  | (st2, some e) =>
    { st2 with log := st2.log ++ ["Error processing " ++ env.channel ++ ": " ++ e] }

/-- One iteration of the `while True` loop: every configured channel is
processed in order. -/
def run_cycle (detect : String → Option String) (envs : List ChannelEnv)
    (st : BotState) : BotState :=
  envs.foldl (fun s env => process_channel detect env s) st

/-- A finite prefix of the process lifetime: the given cycles run in
order from the given state. -/
def run_cycles (detect : String → Option String) (cycles : List (List ChannelEnv))
    (st : BotState) : BotState :=
  cycles.foldl (fun s envs => run_cycle detect envs s) st

/-- An HTTP response of the health server. -/
structure HttpResponse where
  status : Nat
  body : String
  deriving Repr, DecidableEq

/-- `HealthHandler.do_GET`: status 200 and the fixed body, for any path. -/
def health_do_GET (_path : String) : HttpResponse :=
  ⟨200, "YT Tracker Active"⟩

/-- `HealthHandler` under `BaseHTTPRequestHandler` dispatch: the base
class calls `do_<METHOD>` when the handler defines it and otherwise
answers 501 Unsupported method; `HealthHandler` defines only `do_GET`. -/
def health_handle_request (method : String) (path : String) : HttpResponse :=
  if method = "GET" then health_do_GET path
  else ⟨501, "Unsupported method"⟩

/-- Lookup in an association list that did not contain the key finds a
freshly appended binding for that key. -/
theorem lookup_append_self {β : Type} (cache : List (String × β)) (cid : String)
    (v : β) (h : List.lookup cid cache = none) :
    List.lookup cid (cache ++ [(cid, v)]) = some v := by
  induction cache with
  | nil => simp [List.lookup]
  | cons p rest ih =>
    obtain ⟨k, w⟩ := p
    cases hl : cid == k with
    | true =>
      exfalso
      simp only [List.lookup, hl] at h
      exact Option.noConfusion h
    | false =>
      simp only [List.cons_append, List.lookup, hl] at h ⊢
      exact ih h

/-- C3: `format_message` on the upload activity with title `T`, time
`2024-01-01T12:00:00Z`, media id `abc` and channel info `C`/`en`
returns exactly the English upload template instantiated with channel
`C`, title `T`, time rendered `2024-01-01 12:00`, and URL
`https://youtu.be/abc`. -/
theorem format_message_english_upload :
    format_message ⟨"upload", "T", "2024-01-01T12:00:00Z", some "abc"⟩ ⟨"C", "en"⟩ =
      some "🎥 New video from C!\n\n📌 T\n⏰ 2024-01-01 12:00\n🔗 https://youtu.be/abc" := by
  rfl

/-- C4: dedup keys built from the same media id under two different
channel identifiers never collide. -/
theorem activity_key_distinct_channels (c1 c2 : String) (v : Option String)
    (h : c1 ≠ c2) : activity_key c1 v ≠ activity_key c2 v := by
  intro he
  apply h
  have hd := congrArg String.data he
  simp only [activity_key, String.data_append] at hd
  exact String.ext (List.append_cancel_right (List.append_cancel_right hd))

/-- Witness for `activity_key_distinct_channels` at channels `a`, `b`
and media id `v`. -/
theorem activity_key_distinct_channels_witness :
    activity_key "a" (some "v") ≠ activity_key "b" (some "v") :=
  activity_key_distinct_channels "a" "b" (some "v") (by decide)

/-- C5: the underscore-joined dedup key is not injective on
(channel identifier, media id) pairs: `("a_b", "c")` and `("a", "b_c")`
are distinct pairs with the same key `a_b_c`. -/
theorem activity_key_collision :
    activity_key "a_b" (some "c") = activity_key "a" (some "b_c") ∧
      (("a_b", some "c") : String × Option String) ≠ ("a", some "b_c") := by
  exact ⟨rfl, by decide⟩

/-- C6: the constructed viewing URL is the short-link form
`https://youtu.be/` plus the media id for kind `upload`, and the
watch-page form `https://youtube.com/watch?v=` plus the media id for
kind `live`. -/
theorem activity_url_shapes (a : Activity) (v : String) (hv : a.video_id = some v) :
    (a.type = "upload" → activity_url a = "https://youtu.be/" ++ v) ∧
    (a.type = "live" → activity_url a = "https://youtube.com/watch?v=" ++ v) := by
  constructor
  · intro ht
    simp [activity_url, ht, hv, py_str]
  · intro ht
    simp [activity_url, ht, hv, py_str]

/-- Witness for `activity_url_shapes` at a concrete upload activity. -/
theorem activity_url_shapes_witness :
    (((⟨"upload", "t", "tm", some "abc"⟩ : Activity).type = "upload" →
        activity_url ⟨"upload", "t", "tm", some "abc"⟩ = "https://youtu.be/" ++ "abc") ∧
     ((⟨"upload", "t", "tm", some "abc"⟩ : Activity).type = "live" →
        activity_url ⟨"upload", "t", "tm", some "abc"⟩ = "https://youtube.com/watch?v=" ++ "abc")) :=
  activity_url_shapes ⟨"upload", "t", "tm", some "abc"⟩ "abc" rfl

/-- C7 counterexample: a retained entry of kind `live` whose content
details also carry an upload video id gets that video id as its media
identifier, not the live-chat identifier `CHAT`, because the extraction
expression does not branch on the kind. -/
theorem get_activities_live_video_id_cex :
    get_activities (Except.ok [⟨"live", "t", "tm", ⟨some "VID", some "CHAT"⟩⟩]) =
      [⟨"live", "t", "tm", some "VID"⟩] ∧
      (some "VID" : Option String) ≠ some "CHAT" := by
  exact ⟨rfl, by decide⟩

/-- C7 amended: every retained entry's media identifier is the upload
video id when that is present and non-empty — regardless of the entry's
kind — and otherwise the live-broadcast live-chat identifier. -/
theorem get_activities_media_id (items : List ActivityItem) (a : Activity)
    (ha : a ∈ get_activities (Except.ok items)) :
    ∃ i ∈ items, (i.type = "upload" ∨ i.type = "live") ∧ a.type = i.type ∧
      a.video_id = py_or i.contentDetails.upload_videoId
        i.contentDetails.liveBroadcast_activeLiveChatId ∧
      (∀ v, i.contentDetails.upload_videoId = some v → v ≠ "" → a.video_id = some v) ∧
      (i.contentDetails.upload_videoId = none →
        a.video_id = i.contentDetails.liveBroadcast_activeLiveChatId) := by
  simp only [get_activities, List.mem_map, List.mem_filter] at ha
  obtain ⟨i, ⟨hi, htype⟩, heq⟩ := ha
  refine ⟨i, hi, ?_, ?_, ?_, ?_, ?_⟩
  · rcases Bool.or_eq_true_iff.mp htype with h | h
    · exact Or.inl (by simpa using h)
    · exact Or.inr (by simpa using h)
  · rw [← heq]
  · rw [← heq]; rfl
  · intro v hv hne
    rw [← heq]
    simp [extract_video_id, py_or, hv, hne]
  · intro hnone
    rw [← heq]
    simp [extract_video_id, py_or, hnone]

/-- Witness for `get_activities_media_id` at a concrete upload item. -/
theorem get_activities_media_id_witness :
    ∃ i ∈ [(⟨"upload", "T", "tm", ⟨some "abc", none⟩⟩ : ActivityItem)],
      (i.type = "upload" ∨ i.type = "live") ∧
      (⟨"upload", "T", "tm", some "abc"⟩ : Activity).type = i.type ∧
      (⟨"upload", "T", "tm", some "abc"⟩ : Activity).video_id =
        py_or i.contentDetails.upload_videoId
          i.contentDetails.liveBroadcast_activeLiveChatId ∧
      (∀ v, i.contentDetails.upload_videoId = some v → v ≠ "" →
        (⟨"upload", "T", "tm", some "abc"⟩ : Activity).video_id = some v) ∧
      (i.contentDetails.upload_videoId = none →
        (⟨"upload", "T", "tm", some "abc"⟩ : Activity).video_id =
          i.contentDetails.liveBroadcast_activeLiveChatId) :=
  get_activities_media_id [⟨"upload", "T", "tm", ⟨some "abc", none⟩⟩]
    ⟨"upload", "T", "tm", some "abc"⟩ (by simp [get_activities, extract_video_id, py_or])

/-- C8 counterexample: on a cache miss whose metadata lookup returns no
items, `get_channel_info` answers with the fixed default info but the
returned cache still has no entry for the channel id, refuting that an
entry is present after any call. -/
theorem get_channel_info_no_items_uncached :
    (get_channel_info (fun _ => some "en") [] "c" (Except.ok [])).map
        (fun p => (List.lookup "c" p.1, p.2)) =
      Except.ok (none, ⟨"Unknown Channel", "en"⟩) := by
  rfl

/-- C8 amended: `get_channel_info` returns the cached entry when one is
present, whatever the lookup response; on a miss with a non-empty
response it computes title and detected language, caches that result
and returns it (so the entry is then present); on a miss with an empty
response it returns the fixed default without caching; and language
detection falls back to `en` when the detector raises. -/
theorem get_channel_info_spec :
    (∀ (detect : String → Option String) cache cid resp info,
       List.lookup cid cache = some info →
       get_channel_info detect cache cid resp = Except.ok (cache, info)) ∧
    (∀ (detect : String → Option String) cache cid,
       List.lookup cid cache = none →
       get_channel_info detect cache cid (Except.ok []) =
         Except.ok (cache, ⟨"Unknown Channel", "en"⟩)) ∧
    (∀ (detect : String → Option String) cache cid s rest,
       List.lookup cid cache = none →
       ∃ info : ChannelInfo,
         info = ⟨s.title, detect_language detect ((s.description.getD "") ++ " " ++ s.title)⟩ ∧
         get_channel_info detect cache cid (Except.ok (s :: rest)) =
           Except.ok (cache ++ [(cid, info)], info) ∧
         List.lookup cid (cache ++ [(cid, info)]) = some info) ∧
    (∀ (detect : String → Option String) text,
       detect (text.take 500) = none → detect_language detect text = "en") := by
  refine ⟨?_, ?_, ?_, ?_⟩
  · intro detect cache cid resp info h
    simp [get_channel_info, h]
  · intro detect cache cid h
    simp [get_channel_info, h]
  · intro detect cache cid s rest h
    refine ⟨_, rfl, ?_, lookup_append_self cache cid _ h⟩
    simp [get_channel_info, h]
  · intro detect text h
    simp [detect_language, h]

/-- Witness for `get_channel_info_spec`: cache hit, empty-response miss,
non-empty-response miss, and detector fallback, each at concrete
inputs. -/
theorem get_channel_info_spec_witness :
    get_channel_info (fun _ => some "ru") [("c", ⟨"T", "ru"⟩)] "c" (Except.error "boom") =
      Except.ok ([("c", ⟨"T", "ru"⟩)], ⟨"T", "ru"⟩) ∧
    get_channel_info (fun _ => some "ru") [] "c" (Except.ok []) =
      Except.ok ([], ⟨"Unknown Channel", "en"⟩) ∧
    (∃ info : ChannelInfo,
      info = ⟨"T", detect_language (fun _ => some "ru") (("d" : String) ++ " " ++ "T")⟩ ∧
      get_channel_info (fun _ => some "ru") [] "c" (Except.ok [⟨"T", some "d"⟩]) =
        Except.ok ([] ++ [("c", info)], info) ∧
      List.lookup "c" ([] ++ [("c", info)]) = some info) ∧
    detect_language (fun _ => none) "whatever" = "en" := by
  refine ⟨get_channel_info_spec.1 _ _ _ _ _ (by rfl),
          get_channel_info_spec.2.1 _ _ _ (by rfl),
          ?_,
          get_channel_info_spec.2.2.2 _ "whatever" (by rfl)⟩
  have h := get_channel_info_spec.2.2.1 (fun _ => some "ru") [] "c" ⟨"T", some "d"⟩ [] (by rfl)
  simpa using h

/-- C10 counterexample: a POST request is answered with status 501, not
200, because the handler only defines `do_GET`. -/
theorem health_post_not_200 :
    (health_handle_request "POST" "/").status = 501 ∧
      ¬ (health_handle_request "POST" "/").status = 200 := by
  decide

/-- C10 amended: every GET request, whatever the path, is answered with
status 200 and the fixed non-empty body `YT Tracker Active`; any other
method is answered with a 501 error by the base-class dispatch. -/
theorem health_get_200_other_501 :
    (∀ path, health_handle_request "GET" path = ⟨200, "YT Tracker Active"⟩ ∧
       ("YT Tracker Active" : String) ≠ "") ∧
    (∀ method path, method ≠ "GET" → (health_handle_request method path).status = 501) := by
  constructor
  · intro path
    exact ⟨rfl, by decide⟩
  · intro method path h
    simp [health_handle_request, h]

/-- Witness for `health_get_200_other_501` at a GET to `/probe` and a
POST to `/`. -/
theorem health_get_200_other_501_witness :
    (health_handle_request "GET" "/probe" = ⟨200, "YT Tracker Active"⟩ ∧
       ("YT Tracker Active" : String) ≠ "") ∧
    (health_handle_request "POST" "/").status = 501 :=
  ⟨health_get_200_other_501.1 "/probe", health_get_200_other_501.2 "POST" "/" (by decide)⟩

/-- Number of delivered notifications for a given dedup key in the
state's sent trace. -/
def sent_key_count (st : BotState) (k : String) : Nat :=
  List.countP (fun e => e.1 == k) st.sent

/-- The deduplication invariant of the poll loop: every dedup key has at
most one delivered notification, and every delivered notification's key
is recorded in `last_activities`. -/
def dedup_inv (st : BotState) : Prop :=
  (∀ k : String, sent_key_count st k ≤ 1) ∧
  (∀ e ∈ st.sent, e.1 ∈ seen_keys st)

theorem dedup_inv_init : dedup_inv init_state := by
  constructor
  · intro k
    simp [sent_key_count, init_state]
  · intro e he
    simp [init_state] at he

theorem run_activity_loop_inv (cid : String) (info : ChannelInfo)
    (sf : Nat → Option String) (acts : List Activity) :
    ∀ (idx : Nat) (st : BotState), dedup_inv st →
      dedup_inv (run_activity_loop cid info sf acts idx st).1 := by
  induction acts with
  | nil => intro idx st h; exact h
  | cons a rest ih =>
    intro idx st h
    by_cases hk : (seen_keys st).contains (activity_key cid a.video_id) = true
    · simp only [run_activity_loop, hk, if_true]
      exact ih idx st h
    · simp only [run_activity_loop, hk, if_false, Bool.false_eq_true]
      cases hf : format_message a info with
      | none => exact h
      | some msg =>
        cases hs : sf idx with
        | some e => exact h
        | none =>
          apply ih
          have hnotseen : activity_key cid a.video_id ∉ seen_keys st := by
            intro hmem
            exact hk (List.elem_iff.mpr hmem)
          constructor
          · intro k
            show List.countP (fun e => e.1 == k)
              (st.sent ++ [(activity_key cid a.video_id, msg)]) ≤ 1
            rw [List.countP_append]
            by_cases hkey : ((activity_key cid a.video_id : String) == k) = true
            · have hzero : List.countP (fun e => e.1 == k) st.sent = 0 := by
                rw [List.countP_eq_zero]
                intro e he hbeq
                apply hnotseen
                have h1 : e.1 = k := eq_of_beq hbeq
                have h2 : activity_key cid a.video_id = k := eq_of_beq hkey
                rw [← h2] at h1
                rw [← h1]
                exact h.2 e he
              rw [hzero, List.countP_cons, List.countP_nil]
              simp [hkey]
            · have : List.countP (fun e => e.1 == k)
                  [((activity_key cid a.video_id : String), msg)] = 0 := by
                rw [List.countP_eq_zero]
                intro e he hbeq
                rw [List.mem_singleton] at he
                rw [he] at hbeq
                exact hkey hbeq
              rw [this]
              simpa [sent_key_count] using h.1 k
          · intro e he
            show e.1 ∈ seen_keys
              { st with
                last_activities := st.last_activities ++
                  [(activity_key cid a.video_id, a.time)],
                sent := st.sent ++ [(activity_key cid a.video_id, msg)] }
            have hseen : seen_keys
                { st with
                  last_activities := st.last_activities ++
                    [(activity_key cid a.video_id, a.time)],
                  sent := st.sent ++ [(activity_key cid a.video_id, msg)] } =
                seen_keys st ++ [activity_key cid a.video_id] := by
              simp [seen_keys]
            rw [hseen]
            rcases List.mem_append.mp he with hold | hnew
            · exact List.mem_append_left _ (h.2 e hold)
            · rw [List.mem_singleton] at hnew
              rw [hnew]
              exact List.mem_append_right _ (List.mem_singleton.mpr rfl)

theorem process_channel_body_inv (detect : String → Option String)
    (env : ChannelEnv) (st : BotState) (h : dedup_inv st) :
    dedup_inv (process_channel_body detect env st).1 := by
  cases hres : resolve_channel env with
  | error e =>
    simp only [process_channel_body, hres]
    exact h
  | ok o =>
    cases o with
    | none =>
      simp only [process_channel_body, hres]
      exact h
    | some cid =>
      cases hinfo : get_channel_info detect st.channel_cache cid env.infoResponse with
      | error e =>
        simp only [process_channel_body, hres, hinfo]
        exact h
      | ok p =>
        obtain ⟨cache2, info⟩ := p
        simp only [process_channel_body, hres, hinfo]
        exact run_activity_loop_inv cid info env.sendFail
          (get_activities env.activitiesResponse) 0
          { st with channel_cache := cache2 } ⟨h.1, h.2⟩

theorem process_channel_inv (detect : String → Option String)
    (env : ChannelEnv) (st : BotState) (h : dedup_inv st) :
    dedup_inv (process_channel detect env st) := by
  unfold process_channel
  have hbody := process_channel_body_inv detect env st h
  cases hb : process_channel_body detect env st with
  | mk st2 err =>
    rw [hb] at hbody
    cases err with
    | none => exact hbody
    | some e => exact ⟨hbody.1, hbody.2⟩

theorem run_cycle_inv (detect : String → Option String) (envs : List ChannelEnv) :
    ∀ st, dedup_inv st → dedup_inv (run_cycle detect envs st) := by
  induction envs with
  | nil => intro st h; exact h
  | cons env rest ih =>
    intro st h
    exact ih _ (process_channel_inv detect env st h)

theorem run_cycles_inv (detect : String → Option String)
    (cycles : List (List ChannelEnv)) :
    ∀ st, dedup_inv st → dedup_inv (run_cycles detect cycles st) := by
  induction cycles with
  | nil => intro st h; exact h
  | cons envs rest ih =>
    intro st h
    exact ih _ (run_cycle_inv detect envs st h)

/-- C1: over any finite prefix of the process lifetime starting from the
fresh state, at most one notification is delivered per dedup key; in
particular, once a key's notification has been sent and the key
recorded in `last_activities`, no later iteration or cycle delivers
another one for it. -/
theorem dedup_key_at_most_once (detect : String → Option String)
    (cycles : List (List ChannelEnv)) (k : String) :
    sent_key_count (run_cycles detect cycles init_state) k ≤ 1 :=
  (run_cycles_inv detect cycles init_state dedup_inv_init).1 k

theorem run_activity_loop_all_seen (cid : String) (info : ChannelInfo)
    (sf : Nat → Option String) (acts : List Activity) :
    ∀ (idx : Nat) (st : BotState),
      (∀ a ∈ acts, (seen_keys st).contains (activity_key cid a.video_id) = true) →
      run_activity_loop cid info sf acts idx st = (st, none) := by
  induction acts with
  | nil => intro idx st h; rfl
  | cons a rest ih =>
    intro idx st h
    have ha := h a (List.mem_cons_self a rest)
    simp only [run_activity_loop, ha, if_true]
    exact ih idx st (fun b hb => h b (List.mem_cons_of_mem a hb))

theorem process_channel_all_seen (detect : String → Option String)
    (env : ChannelEnv) (st : BotState)
    (h : ∀ cid, resolve_channel env = Except.ok (some cid) →
         ∀ a ∈ get_activities env.activitiesResponse,
           (seen_keys st).contains (activity_key cid a.video_id) = true) :
    (process_channel detect env st).sent = st.sent ∧
      (process_channel detect env st).last_activities = st.last_activities := by
  cases hres : resolve_channel env with
  | error e =>
    simp only [process_channel, process_channel_body, hres]
    exact ⟨by trivial, by trivial⟩
  | ok o =>
    cases o with
    | none =>
      simp only [process_channel, process_channel_body, hres]
      exact ⟨by trivial, by trivial⟩
    | some cid =>
      cases hinfo : get_channel_info detect st.channel_cache cid env.infoResponse with
      | error e =>
        simp only [process_channel, process_channel_body, hres, hinfo]
        exact ⟨by trivial, by trivial⟩
      | ok p =>
        obtain ⟨cache2, info⟩ := p
        simp only [process_channel, process_channel_body, hres, hinfo]
        rw [run_activity_loop_all_seen cid info env.sendFail
          (get_activities env.activitiesResponse) 0
          { st with channel_cache := cache2 } (h cid hres)]
        exact ⟨by trivial, by trivial⟩

/-- C2: when the already-seen dedup keys include the key of every
fetched activity of every channel, one full poll cycle over those same
fetched activities delivers zero notifications. -/
theorem cycle_idempotent_on_seen (detect : String → Option String)
    (envs : List ChannelEnv) (st : BotState)
    (h : ∀ env ∈ envs, ∀ cid, resolve_channel env = Except.ok (some cid) →
         ∀ a ∈ get_activities env.activitiesResponse,
           (seen_keys st).contains (activity_key cid a.video_id) = true) :
    (run_cycle detect envs st).sent = st.sent := by
  induction envs generalizing st with
  | nil => rfl
  | cons env rest ih =>
    have h1 := process_channel_all_seen detect env st (h env (List.mem_cons_self env rest))
    have hseen : seen_keys (process_channel detect env st) = seen_keys st := by
      simp [seen_keys, h1.2]
    calc (run_cycle detect (env :: rest) st).sent
        = (run_cycle detect rest (process_channel detect env st)).sent := rfl
      _ = (process_channel detect env st).sent := by
          apply ih
          intro env2 henv2 cid hcid a ha
          rw [hseen]
          exact h env2 (List.mem_cons_of_mem env henv2) cid hcid a ha
      _ = st.sent := h1.1

/-- Witness for `cycle_idempotent_on_seen`: a cycle over one channel
whose single fetched upload is already recorded delivers nothing. -/
theorem cycle_idempotent_on_seen_witness :
    (run_cycle (fun _ => some "en")
        [⟨"chan1", Except.ok [], Except.ok [⟨"C", none⟩],
          Except.ok [⟨"upload", "T", "2024-01-01T12:00:00Z", ⟨some "abc", none⟩⟩],
          fun _ => none⟩]
        ⟨[], [("chan1_abc", "t")], [], []⟩).sent =
      (⟨[], [("chan1_abc", "t")], [], []⟩ : BotState).sent := by
  apply cycle_idempotent_on_seen
  intro env henv cid hcid a ha
  rw [List.mem_singleton] at henv
  subst henv
  have hres : resolve_channel
      (⟨"chan1", Except.ok [], Except.ok [⟨"C", none⟩],
        Except.ok [⟨"upload", "T", "2024-01-01T12:00:00Z", ⟨some "abc", none⟩⟩],
        fun _ => none⟩ : ChannelEnv) = Except.ok (some "chan1") := rfl
  rw [hres] at hcid
  have hcid2 : cid = "chan1" := by
    injection hcid with h1
    injection h1 with h2
    exact h2.symm
  subst hcid2
  have hacts : get_activities (Except.ok
      [(⟨"upload", "T", "2024-01-01T12:00:00Z", ⟨some "abc", none⟩⟩ : ActivityItem)]) =
      [⟨"upload", "T", "2024-01-01T12:00:00Z", some "abc"⟩] := rfl
  rw [hacts] at ha
  rw [List.mem_singleton] at ha
  subst ha
  rfl

/-- C9: an exception raised anywhere in one channel's body is caught
and logged at the per-channel level, and the cycle goes on to process
every remaining channel from the state the failing channel left
behind. -/
theorem per_channel_exception_isolated (detect : String → Option String)
    (pre post : List ChannelEnv) (env : ChannelEnv) (st st2 : BotState) (e : String)
    (h : process_channel_body detect env (run_cycle detect pre st) = (st2, some e)) :
    run_cycle detect (pre ++ env :: post) st =
      run_cycle detect post
        { st2 with log := st2.log ++ ["Error processing " ++ env.channel ++ ": " ++ e] } := by
  have hsplit : run_cycle detect (pre ++ env :: post) st =
      run_cycle detect (env :: post) (run_cycle detect pre st) := by
    unfold run_cycle
    exact List.foldl_append _ _ pre (env :: post)
  rw [hsplit]
  show run_cycle detect post
      (process_channel detect env (run_cycle detect pre st)) = _
  unfold process_channel
  rw [h]

/-- Witness for `per_channel_exception_isolated`: a raising search call
on the only channel of a cycle is caught, logged, and leaves the state
otherwise unchanged. -/
theorem per_channel_exception_isolated_witness :
    run_cycle (fun _ => none)
        ([] ++ (⟨"@x", Except.error "boom", Except.ok [], Except.ok [],
          fun _ => none⟩ : ChannelEnv) :: []) init_state =
      run_cycle (fun _ => none) []
        { init_state with
          log := init_state.log ++ ["Error processing " ++ "@x" ++ ": " ++ "boom"] } :=
  per_channel_exception_isolated (fun _ => none) [] []
    ⟨"@x", Except.error "boom", Except.ok [], Except.ok [], fun _ => none⟩
    init_state init_state "boom" rfl
